import Mathlib

/-!
Shallow embedding of the social-network dual-store services.

The Python sources are embedded as pure Lean functions:
* the relational Record Store (SQLAlchemy session state) is a `Db` value,
* the secondary Elasticsearch index is an `Es` value whose `down` flag
  models an unreachable index (every client call raises),
* each Flask handler becomes a function from its inputs and the current
  `Db`/`Es` state to a status code and the successor state,
* a Python exception that escapes a handler is embedded as the HTTP 500
  response Flask produces for an unhandled exception,
* `datetime` timestamps are embedded as `Nat` ticks (isoformat strings
  order chronologically, so `Nat` order is faithful).
-/

namespace TheSocialNetwork

/-- Canonical User row (`user_service`; mirrored in `like_service/src/models.py`). -/
structure UserRow where
  id : Nat
  name : String
  mobile_no : String
  email : String
  password : String
  created_at : Nat
deriving DecidableEq

/-- Canonical Follow row: composite (follower, followee) identity. -/
structure FollowRow where
  follower_id : Nat
  followee_id : Nat
deriving DecidableEq

/-- Canonical TargetEntity row (`like_service/src/models.py`). -/
structure TargetEntityRow where
  id : Nat
  entity_type : String
  entity_id : Nat
deriving DecidableEq

/-- Canonical Like row (`like_service/src/models.py`). -/
structure LikeRow where
  id : Nat
  target_entity_id : Nat
  user_id : Nat
  created_at : Nat
deriving DecidableEq

/-- Canonical Discussion row, with the fields `discussion_service/src/app.py`
reads and writes (`text`, `image`, `hashtags`, `user_id`, `created_on`). -/
structure DiscussionRow where
  id : Nat
  text : String
  image : String
  hashtags : String
  user_id : Nat
  created_on : Nat
deriving DecidableEq

/-- Canonical Comment row, with the fields `comment_service/src/app.py` uses. -/
structure CommentRow where
  id : Nat
  text : String
  discussion_id : Nat
  user_id : Nat
  created_on : Nat
deriving DecidableEq

/-- The Record Store: one table per entity plus autoincrement counters for
the primary keys the services create. -/
structure Db where
  users : List UserRow
  follows : List FollowRow
  discussions : List DiscussionRow
  comments : List CommentRow
  target_entities : List TargetEntityRow
  likes : List LikeRow
  next_discussion_id : Nat
  next_comment_id : Nat
  next_target_entity_id : Nat
  next_like_id : Nat
deriving DecidableEq

/-- Index document for a User: exactly the body built by
`index_user_to_elasticsearch` (name, mobile_no, email - no password). -/
structure UserDoc where
  name : String
  mobile_no : String
  email : String
deriving DecidableEq

/-- Index document for a Follow (`index_follow_to_elasticsearch`). -/
structure FollowDoc where
  follower_id : Nat
  followee_id : Nat
deriving DecidableEq

/-- Index document for a Like (`index_like_to_elasticsearch`): carries the
resolved entity kind and id from its TargetEntity. -/
structure LikeDoc where
  user_id : Nat
  target_entity_id : Nat
  entity_type : String
  entity_id : Nat
  created_at : Nat
deriving DecidableEq

/-- Index document for a Discussion (`index_discussion_to_elasticsearch`). -/
structure DiscussionDoc where
  text : String
  image : String
  hashtags : String
  created_on : Nat
  user_id : Nat
deriving DecidableEq

/-- Index document for a Comment (`index_comment_to_elasticsearch`). -/
structure CommentDoc where
  text : String
  discussion_id : Nat
  user_id : Nat
  created_on : Nat
deriving DecidableEq

/-- The secondary index: one keyed collection per document type, plus a
`down` flag modelling an unreachable Elasticsearch (every call raises). -/
structure Es where
  down : Bool
  users : List (Nat × UserDoc)
  follows : List (String × FollowDoc)
  likes : List (Nat × LikeDoc)
  discussions : List (Nat × DiscussionDoc)
  comments : List (Nat × CommentDoc)
deriving DecidableEq

/-- `es.index(index=..., id=k, body=d)`: upsert by document id. -/
def esUpsert {κ δ : Type} [DecidableEq κ] (idx : List (κ × δ)) (k : κ) (d : δ) :
    List (κ × δ) :=
  if idx.any (fun p => decide (p.1 = k)) then
    idx.map (fun p => if p.1 = k then (k, d) else p)
  else
    idx ++ [(k, d)]

/-- `es.delete(index=..., id=k)`: remove the document with id `k`. -/
def esRemove {κ δ : Type} [DecidableEq κ] (idx : List (κ × δ)) (k : κ) :
    List (κ × δ) :=
  idx.filter (fun p => decide (p.1 ≠ k))

/-- `es.get(index=..., id=k)`: `none` models the NotFoundError the client
raises for an absent document. -/
def esGet {κ δ : Type} [DecidableEq κ] (idx : List (κ × δ)) (k : κ) : Option δ :=
  (idx.find? (fun p => decide (p.1 = k))).map Prod.snd

/-- Follow documents are keyed by the composite string "{follower}_{followee}". -/
def followKey (follower_id followee_id : Nat) : String :=
  toString follower_id ++ "_" ++ toString followee_id

/-- Result of a mutating handler: HTTP status plus the successor stores. -/
structure MutResult where
  status : Nat
  db : Db
  es : Es
deriving DecidableEq

/-- Result of a paginated listing handler. -/
structure PageResp (α : Type) where
  status : Nat
  items : List α
  page : Int
  per_page : Int
  total : Nat
deriving DecidableEq

/-- Descending order on a `Nat` sort key of an index document, as Elasticsearch
applies it for a `{"order": "desc"}` sort clause. -/
def descBy {δ : Type} (key : δ → Nat) (a b : Nat × δ) : Prop :=
  key b.2 ≤ key a.2

instance {δ : Type} (key : δ → Nat) : DecidableRel (descBy key) :=
  fun a b => inferInstanceAs (Decidable (key b.2 ≤ key a.2))

instance {δ : Type} (key : δ → Nat) : IsTotal (Nat × δ) (descBy key) :=
  ⟨fun a b => Nat.le_total (key b.2) (key a.2)⟩

instance {δ : Type} (key : δ → Nat) : IsTrans (Nat × δ) (descBy key) :=
  ⟨fun _ _ _ hab hbc => Nat.le_trans hbc hab⟩

/-- Model of an `es.search` with a filter, an optional descending sort key,
an offset `from` and a limit `size`: the matching documents, sorted when a
sort key is given, windowed by drop/take. -/
def esSearchWindow {δ : Type} (idx : List (Nat × δ)) (pred : Nat × δ → Bool)
    (key : δ → Nat) (start size : Nat) : List (Nat × δ) :=
  ((((idx.filter pred).insertionSort (descBy key)).drop start).take size)

/- ------------------------------------------------------------------ -/
/- like_service/src/app.py                                             -/
/- ------------------------------------------------------------------ -/

/-- `index_like_to_elasticsearch`: look the TargetEntity up in the current
canonical state, build the denormalized document, and index it; any failure
(index down, or a missing TargetEntity making the attribute access raise)
is caught and only logged. -/
def index_like_to_elasticsearch (like : LikeRow) (db : Db) (es : Es) : Es :=
  if es.down then es
  else
    match db.target_entities.find? (fun t => decide (t.id = like.target_entity_id)) with
    | none => es
    | some te =>
      let doc : LikeDoc :=
        { user_id := like.user_id, target_entity_id := like.target_entity_id,
          entity_type := te.entity_type, entity_id := te.entity_id,
          created_at := like.created_at }
      { es with likes := esUpsert es.likes like.id doc }

/-- `delete_like_from_elasticsearch`: best-effort document delete. -/
def delete_like_from_elasticsearch (like_id : Nat) (es : Es) : Es :=
  if es.down then es
  else { es with likes := esRemove es.likes like_id }

/-- The create-or-get block of `create_like` (the spec's Target Resolver):
reuse the TargetEntity with this (entity_type, entity_id) pair if one
exists, otherwise insert a fresh row. Returns the resolved id. -/
def resolveTargetEntity (entity_type : String) (entity_id : Nat) (db : Db) :
    Nat × Db :=
  match db.target_entities.find?
      (fun t => decide (t.entity_type = entity_type) && decide (t.entity_id = entity_id)) with
  | some t => (t.id, db)
  | none =>
    (db.next_target_entity_id,
      { db with
          target_entities := db.target_entities ++
            [{ id := db.next_target_entity_id, entity_type := entity_type,
               entity_id := entity_id }],
          next_target_entity_id := db.next_target_entity_id + 1 })

/-- `create_like`: validate the entity type, resolve the TargetEntity, insert
the Like (no duplicate-like check exists in the source), commit, then
best-effort index the new like. -/
def create_like (user_id : Nat) (entity_type : String) (entity_id : Nat)
    (now : Nat) (db : Db) (es : Es) : MutResult :=
  if entity_type ≠ "discussion" ∧ entity_type ≠ "comment" then
    { status := 400, db := db, es := es }
  else
    let r := resolveTargetEntity entity_type entity_id db
    let like : LikeRow :=
      { id := r.2.next_like_id, target_entity_id := r.1, user_id := user_id,
        created_at := now }
    let db2 := { r.2 with likes := r.2.likes ++ [like],
                          next_like_id := r.2.next_like_id + 1 }
    { status := 201, db := db2, es := index_like_to_elasticsearch like db2 es }

/-- `delete_like`: 404 when the row is absent, 403 when the caller does not
own it; otherwise delete the row, best-effort deproject it, then delete the
TargetEntity when no other Like still references it. -/
def delete_like (user_id like_id : Nat) (db : Db) (es : Es) : MutResult :=
  match db.likes.find? (fun l => decide (l.id = like_id)) with
  | none => { status := 404, db := db, es := es }
  | some like =>
    if like.user_id ≠ user_id then { status := 403, db := db, es := es }
    else
      let teid := like.target_entity_id
      let db1 := { db with likes := db.likes.filter (fun l => decide (l.id ≠ like_id)) }
      let es1 := delete_like_from_elasticsearch like_id es
      let other_likes : Nat :=
        (db1.likes.filter (fun l => decide (l.target_entity_id = teid))).length
      let db2 :=
        if other_likes = 0 then
          { db1 with target_entities :=
              db1.target_entities.filter (fun t => decide (t.id ≠ teid)) }
        else db1
      { status := 200, db := db2, es := es1 }

/-- The entry shape `list_user_likes` builds from each hit. -/
structure LikeEntry where
  id : Nat
  target_entity_id : Nat
  entity_type : String
  entity_id : Nat
  created_at : Nat
deriving DecidableEq

/-- `list_user_likes`: page/per_page default to 1/10, the likes index is
filtered on the caller's user_id, sorted by descending created_at, windowed
at offset (page-1)*per_page with limit per_page; total is the full match
count. A negative offset or size, or an unreachable index, makes the
Elasticsearch call raise, which the handler turns into a 500. -/
def list_user_likes (user_id : Nat) (pageOpt per_pageOpt : Option Int)
    (es : Es) : PageResp LikeEntry :=
  let page := pageOpt.getD 1
  let per_page := per_pageOpt.getD 10
  let start := (page - 1) * per_page
  if es.down ∨ start < 0 ∨ per_page < 0 then
    { status := 500, items := [], page := page, per_page := per_page, total := 0 }
  else
    let matching := es.likes.filter (fun p => decide (p.2.user_id = user_id))
    let hits := esSearchWindow es.likes (fun p => decide (p.2.user_id = user_id))
      LikeDoc.created_at start.toNat per_page.toNat
    { status := 200,
      items := hits.map (fun p =>
        { id := p.1, target_entity_id := p.2.target_entity_id,
          entity_type := p.2.entity_type, entity_id := p.2.entity_id,
          created_at := p.2.created_at }),
      page := page, per_page := per_page, total := matching.length }

/- ------------------------------------------------------------------ -/
/- discussion_service/src/app.py                                       -/
/- ------------------------------------------------------------------ -/

/-- `index_discussion_to_elasticsearch`: best-effort upsert of the document. -/
def index_discussion_to_elasticsearch (d : DiscussionRow) (es : Es) : Es :=
  if es.down then es
  else
    let doc : DiscussionDoc :=
      { text := d.text, image := d.image, hashtags := d.hashtags,
        created_on := d.created_on, user_id := d.user_id }
    { es with discussions := esUpsert es.discussions d.id doc }

/-- `delete_discussion_from_elasticsearch`: best-effort document delete. -/
def delete_discussion_from_elasticsearch (discussion_id : Nat) (es : Es) : Es :=
  if es.down then es
  else { es with discussions := esRemove es.discussions discussion_id }

/-- `create_discussion`: insert the row, commit, then best-effort index it. -/
def create_discussion (user_id : Nat) (text image hashtags : String)
    (now : Nat) (db : Db) (es : Es) : MutResult :=
  let d : DiscussionRow :=
    { id := db.next_discussion_id, text := text, image := image,
      hashtags := hashtags, user_id := user_id, created_on := now }
  let db1 := { db with discussions := db.discussions ++ [d],
                       next_discussion_id := db.next_discussion_id + 1 }
  { status := 201, db := db1, es := index_discussion_to_elasticsearch d es }

/-- `delete_discussion`: the handler reads `discussion.user_id` without a
None check, so an absent id raises AttributeError and Flask answers 500;
403 for a non-owner; otherwise delete the row and best-effort deproject. -/
def delete_discussion (user_id discussion_id : Nat) (db : Db) (es : Es) :
    MutResult :=
  match db.discussions.find? (fun d => decide (d.id = discussion_id)) with
  | none => { status := 500, db := db, es := es }
  | some d =>
    if d.user_id ≠ user_id then { status := 403, db := db, es := es }
    else
      { status := 200,
        db := { db with discussions :=
            db.discussions.filter (fun x => decide (x.id ≠ discussion_id)) },
        es := delete_discussion_from_elasticsearch discussion_id es }

/-- The entry shape `list_user_discussions` builds from each hit. -/
structure DiscussionEntry where
  id : Nat
  text : String
  image : String
  hashtags : String
  created_on : Nat
deriving DecidableEq

/-- `list_user_discussions`: same pagination pipeline as `list_user_likes`,
over the discussions index, sorted by descending created_on. -/
def list_user_discussions (user_id : Nat) (pageOpt per_pageOpt : Option Int)
    (es : Es) : PageResp DiscussionEntry :=
  let page := pageOpt.getD 1
  let per_page := per_pageOpt.getD 10
  let start := (page - 1) * per_page
  if es.down ∨ start < 0 ∨ per_page < 0 then
    { status := 500, items := [], page := page, per_page := per_page, total := 0 }
  else
    let matching := es.discussions.filter (fun p => decide (p.2.user_id = user_id))
    let hits := esSearchWindow es.discussions (fun p => decide (p.2.user_id = user_id))
      DiscussionDoc.created_on start.toNat per_page.toNat
    { status := 200,
      items := hits.map (fun p =>
        { id := p.1, text := p.2.text, image := p.2.image,
          hashtags := p.2.hashtags, created_on := p.2.created_on }),
      page := page, per_page := per_page, total := matching.length }

/- ------------------------------------------------------------------ -/
/- comment_service/src/app.py                                          -/
/- ------------------------------------------------------------------ -/

/-- `delete_comment_from_elasticsearch`: best-effort document delete. -/
def delete_comment_from_elasticsearch (comment_id : Nat) (es : Es) : Es :=
  if es.down then es
  else { es with comments := esRemove es.comments comment_id }

/-- `delete_comment`: like `delete_discussion`, an absent id raises on the
unchecked `comment.user_id` access and Flask answers 500. -/
def delete_comment (user_id comment_id : Nat) (db : Db) (es : Es) : MutResult :=
  match db.comments.find? (fun c => decide (c.id = comment_id)) with
  | none => { status := 500, db := db, es := es }
  | some c =>
    if c.user_id ≠ user_id then { status := 403, db := db, es := es }
    else
      { status := 200,
        db := { db with comments :=
            db.comments.filter (fun x => decide (x.id ≠ comment_id)) },
        es := delete_comment_from_elasticsearch comment_id es }

/-- The entry shape `list_user_comments` builds from each hit. -/
structure CommentEntry where
  id : Nat
  text : String
  discussion_id : Nat
  created_on : Nat
deriving DecidableEq

/-- `list_user_comments`: same pagination pipeline, over the comments index,
sorted by descending created_on. -/
def list_user_comments (user_id : Nat) (pageOpt per_pageOpt : Option Int)
    (es : Es) : PageResp CommentEntry :=
  let page := pageOpt.getD 1
  let per_page := per_pageOpt.getD 10
  let start := (page - 1) * per_page
  if es.down ∨ start < 0 ∨ per_page < 0 then
    { status := 500, items := [], page := page, per_page := per_page, total := 0 }
  else
    let matching := es.comments.filter (fun p => decide (p.2.user_id = user_id))
    let hits := esSearchWindow es.comments (fun p => decide (p.2.user_id = user_id))
      CommentDoc.created_on start.toNat per_page.toNat
    { status := 200,
      items := hits.map (fun p =>
        { id := p.1, text := p.2.text, discussion_id := p.2.discussion_id,
          created_on := p.2.created_on }),
      page := page, per_page := per_page, total := matching.length }

/- ------------------------------------------------------------------ -/
/- user_service/src/app.py                                             -/
/- ------------------------------------------------------------------ -/

/-- The body `index_user_to_elasticsearch` indexes for a user: only name,
mobile_no and email; the password hash is not part of the document. -/
def userIndexBody (u : UserRow) : UserDoc :=
  { name := u.name, mobile_no := u.mobile_no, email := u.email }

/-- `index_user_to_elasticsearch`: best-effort upsert of the user document. -/
def index_user_to_elasticsearch (u : UserRow) (es : Es) : Es :=
  if es.down then es
  else { es with users := esUpsert es.users u.id (userIndexBody u) }

/-- `delete_user_from_elasticsearch`: best-effort document delete. -/
def delete_user_from_elasticsearch (user_id : Nat) (es : Es) : Es :=
  if es.down then es
  else { es with users := esRemove es.users user_id }

/-- `index_follow_to_elasticsearch`: best-effort upsert keyed by
"{follower}_{followee}". -/
def index_follow_to_elasticsearch (follower_id followee_id : Nat) (es : Es) : Es :=
  if es.down then es
  else
    let doc : FollowDoc := { follower_id := follower_id, followee_id := followee_id }
    { es with follows := esUpsert es.follows (followKey follower_id followee_id) doc }

/-- `delete_follow_from_elasticsearch`: best-effort document delete. -/
def delete_follow_from_elasticsearch (follower_id followee_id : Nat) (es : Es) : Es :=
  if es.down then es
  else { es with follows := esRemove es.follows (followKey follower_id followee_id) }

/-- `follow_user`: 400 on a self-follow, 400 when the (follower, followee)
row already exists, otherwise insert the row and best-effort index it. -/
def follow_user (current_user_id target_user_id : Nat) (db : Db) (es : Es) :
    MutResult :=
  if current_user_id = target_user_id then { status := 400, db := db, es := es }
  else
    match db.follows.find? (fun f =>
        decide (f.follower_id = current_user_id) && decide (f.followee_id = target_user_id)) with
    | some _ => { status := 400, db := db, es := es }
    | none =>
      let db1 := { db with follows :=
          db.follows ++ [{ follower_id := current_user_id, followee_id := target_user_id }] }
      { status := 200, db := db1,
        es := index_follow_to_elasticsearch current_user_id target_user_id es }

/-- One index delete issued by `delete_user`, recorded in call order. -/
inductive EsDeleteOp where
  | follow : Nat → Nat → EsDeleteOp
  | user : Nat → EsDeleteOp
deriving DecidableEq

/-- Result of `delete_user`: status, successor stores, and the ordered list
of index deletes the handler issued. -/
structure DeleteUserResult where
  status : Nat
  db : Db
  es : Es
  trace : List EsDeleteOp
deriving DecidableEq

/-- `delete_user`: 403 unless the acting identity is the path user, 404 when
the row is absent; otherwise delete every Follow row where the user is
follower or followee (each with its index document), then the User row,
then the user index document. -/
def delete_user (current_user_id path_user_id : Nat) (db : Db) (es : Es) :
    DeleteUserResult :=
  if current_user_id ≠ path_user_id then
    { status := 403, db := db, es := es, trace := [] }
  else
    match db.users.find? (fun u => decide (u.id = path_user_id)) with
    | none => { status := 404, db := db, es := es, trace := [] }
    | some _ =>
      let follows_as_follower :=
        db.follows.filter (fun f => decide (f.follower_id = path_user_id))
      let follows_as_followee :=
        db.follows.filter (fun f => decide (f.followee_id = path_user_id))
      let doomed := follows_as_follower ++ follows_as_followee
      let db1 := { db with follows := db.follows.filter (fun f =>
          decide (f.follower_id ≠ path_user_id) && decide (f.followee_id ≠ path_user_id)) }
      let es1 := doomed.foldl
        (fun e f => delete_follow_from_elasticsearch f.follower_id f.followee_id e) es
      let db2 := { db1 with users := db1.users.filter (fun x =>
          decide (x.id ≠ path_user_id)) }
      let es2 := delete_user_from_elasticsearch path_user_id es1
      let tr := doomed.map (fun f => EsDeleteOp.follow f.follower_id f.followee_id)
        ++ [EsDeleteOp.user path_user_id]
      { status := 200, db := db2, es := es2, trace := tr }

/-- The two-step join of the follower/following listings: fetch each
referenced user document with `es.get`; the first missing document raises
NotFoundError, aborting the whole loop. -/
def fetchUserDocs (users : List (Nat × UserDoc)) : List Nat → Option (List UserDoc)
  | [] => some []
  | i :: rest =>
    match esGet users i with
    | none => none
    | some d => (fetchUserDocs users rest).map (fun l => d :: l)

/-- `list_followers`: page the follows index on followee_id (index-native
order, no sort clause), then fetch each follower's user document from the
index; any Elasticsearch error - index down, bad window, or a missing user
document - reaches the handler's catch-all and yields 500. -/
def list_followers (current_user_id : Nat) (pageOpt per_pageOpt : Option Int)
    (es : Es) : PageResp UserDoc :=
  let page := pageOpt.getD 1
  let per_page := per_pageOpt.getD 10
  let start := (page - 1) * per_page
  if es.down ∨ start < 0 ∨ per_page < 0 then
    { status := 500, items := [], page := page, per_page := per_page, total := 0 }
  else
    let matching := es.follows.filter (fun p => decide (p.2.followee_id = current_user_id))
    let hits := (matching.drop start.toNat).take per_page.toNat
    match fetchUserDocs es.users (hits.map (fun p => p.2.follower_id)) with
    | none =>
      { status := 500, items := [], page := page, per_page := per_page, total := 0 }
    | some followers =>
      { status := 200, items := followers, page := page, per_page := per_page,
        total := matching.length }

/-- `list_following`: symmetric to `list_followers`, paging on follower_id
and fetching each followee's user document. -/
def list_following (current_user_id : Nat) (pageOpt per_pageOpt : Option Int)
    (es : Es) : PageResp UserDoc :=
  let page := pageOpt.getD 1
  let per_page := per_pageOpt.getD 10
  let start := (page - 1) * per_page
  if es.down ∨ start < 0 ∨ per_page < 0 then
    { status := 500, items := [], page := page, per_page := per_page, total := 0 }
  else
    let matching := es.follows.filter (fun p => decide (p.2.follower_id = current_user_id))
    let hits := (matching.drop start.toNat).take per_page.toNat
    match fetchUserDocs es.users (hits.map (fun p => p.2.followee_id)) with
    | none =>
      { status := 500, items := [], page := page, per_page := per_page, total := 0 }
    | some following =>
      { status := 200, items := following, page := page, per_page := per_page,
        total := matching.length }

/-- `list_all_users`: match_all over the users index (index-native order, no
sort clause), windowed by the same offset/limit arithmetic. -/
def list_all_users (pageOpt per_pageOpt : Option Int) (es : Es) :
    PageResp UserDoc :=
  let page := pageOpt.getD 1
  let per_page := per_pageOpt.getD 10
  let start := (page - 1) * per_page
  if es.down ∨ start < 0 ∨ per_page < 0 then
    { status := 500, items := [], page := page, per_page := per_page, total := 0 }
  else
    let hits := (es.users.drop start.toNat).take per_page.toNat
    { status := 200, items := hits.map (fun p => p.2), page := page,
      per_page := per_page, total := es.users.length }

/- ------------------------------------------------------------------ -/
/- search_service/src/app.py                                           -/
/- ------------------------------------------------------------------ -/

/-- The entry shape `search_users` builds from each hit. -/
structure UserHit where
  id : Nat
  name : String
  mobile_no : String
  email : String
deriving DecidableEq

/-- `search_users`: 400 when the query parameter is absent or empty;
otherwise a multi_match over the indexed user documents. Elasticsearch's
text-matching engine is external, so it is embedded as a parameter
`matches : String → UserDoc → Bool` that sees exactly what the engine
sees: the query and the indexed document (whose only fields are name,
mobile_no and email). -/
def search_users (queryOpt : Option String) (esMatch : String → UserDoc → Bool)
    (es : Es) : Nat × List UserHit :=
  match queryOpt with
  | none => (400, [])
  | some q =>
    if q = "" then (400, [])
    else if es.down then (500, [])
    else
      let hits := es.users.filter (fun p => esMatch q p.2)
      (200, hits.map (fun p =>
        { id := p.1, name := p.2.name, mobile_no := p.2.mobile_no,
          email := p.2.email }))

/- ------------------------------------------------------------------ -/
/- Sequences of like operations (for the TargetEntity invariant)       -/
/- ------------------------------------------------------------------ -/

/-- One like-service mutation request. -/
inductive LikeOp where
  | create : Nat → String → Nat → Nat → LikeOp
  | delete : Nat → Nat → LikeOp
deriving DecidableEq

/-- Apply one like-service request to the pair of stores. -/
def likeStep (s : Db × Es) (op : LikeOp) : Db × Es :=
  match op with
  | .create uid ty eid now =>
    let r := create_like uid ty eid now s.1 s.2
    (r.db, r.es)
  | .delete uid lid =>
    let r := delete_like uid lid s.1 s.2
    (r.db, r.es)

/-- Run a sequence of like-service requests. -/
def runLikeOps (s : Db × Es) (ops : List LikeOp) : Db × Es :=
  ops.foldl likeStep s

/-- The spec's TargetEntity invariant: at most one row per
(entity_type, entity_id) pair. -/
def TargetEntityUnique (db : Db) : Prop :=
  List.Pairwise
    (fun a b => ¬(a.entity_type = b.entity_type ∧ a.entity_id = b.entity_id))
    db.target_entities

/-- Two user rows that agree on everything except the password credential. -/
def PwVariant (a b : UserRow) : Prop :=
  a.id = b.id ∧ a.name = b.name ∧ a.mobile_no = b.mobile_no ∧
    a.email = b.email ∧ a.created_at = b.created_at

/-- The users index produced by projecting every row of a user table
(each `create_user`/`update_user` call indexes `userIndexBody`). -/
def projectUsers (us : List UserRow) : List (Nat × UserDoc) :=
  us.map (fun u => (u.id, userIndexBody u))

/- ------------------------------------------------------------------ -/
/- Concrete fixtures                                                   -/
/- ------------------------------------------------------------------ -/

/-- Fresh Record Store: empty tables, autoincrement counters at 1. -/
def dbEmpty : Db :=
  { users := [], follows := [], discussions := [], comments := [],
    target_entities := [], likes := [], next_discussion_id := 1,
    next_comment_id := 1, next_target_entity_id := 1, next_like_id := 1 }

/-- Fresh, reachable secondary index. -/
def esEmpty : Es :=
  { down := false, users := [], follows := [], likes := [], discussions := [],
    comments := [] }

/-- An index holding one follow document (user 2 follows user 1) whose
follower has no user document. -/
def esOrphanFollow : Es :=
  { down := false, users := [],
    follows := [(followKey 2 1, { follower_id := 2, followee_id := 1 })],
    likes := [], discussions := [], comments := [] }

/- ------------------------------------------------------------------ -/
/- Theorems                                                            -/
/- ------------------------------------------------------------------ -/

/-- C1: the code accepts a duplicate like. Starting from empty stores, user 1
likes (discussion, 7) twice; the second request also returns 201 and inserts
a second Like row for the same user and the same resolved TargetEntity,
instead of failing with Conflict 409 and adding no row. -/
theorem duplicate_like_accepted :
    (create_like 1 "discussion" 7 0 dbEmpty esEmpty).status = 201 ∧
    (create_like 1 "discussion" 7 1
        (create_like 1 "discussion" 7 0 dbEmpty esEmpty).db
        (create_like 1 "discussion" 7 0 dbEmpty esEmpty).es).status = 201 ∧
    (create_like 1 "discussion" 7 1
        (create_like 1 "discussion" 7 0 dbEmpty esEmpty).db
        (create_like 1 "discussion" 7 0 dbEmpty esEmpty).es).db.likes.length = 2 ∧
    (create_like 1 "discussion" 7 1
        (create_like 1 "discussion" 7 0 dbEmpty esEmpty).db
        (create_like 1 "discussion" 7 0 dbEmpty esEmpty).es).db.likes.map
      (fun l => (l.user_id, l.target_entity_id)) = [(1, 1), (1, 1)] := by
  decide

/-- C6: deleting an absent like does return NotFound 404 with the stores
unchanged, but deleting an absent discussion or comment hits the unchecked
`row.user_id` attribute access on None, so those handlers answer 500, not
404 (the stores are still unchanged). -/
theorem delete_absent_row_statuses :
    (delete_like 1 7 dbEmpty esEmpty).status = 404 ∧
    (delete_like 1 7 dbEmpty esEmpty).db = dbEmpty ∧
    (delete_like 1 7 dbEmpty esEmpty).es = esEmpty ∧
    (delete_discussion 1 7 dbEmpty esEmpty).status = 500 ∧
    (delete_discussion 1 7 dbEmpty esEmpty).db = dbEmpty ∧
    (delete_discussion 1 7 dbEmpty esEmpty).es = esEmpty ∧
    (delete_comment 1 7 dbEmpty esEmpty).status = 500 ∧
    (delete_comment 1 7 dbEmpty esEmpty).db = dbEmpty ∧
    (delete_comment 1 7 dbEmpty esEmpty).es = esEmpty := by
  decide

/-- C5 counterexample: with one follow document on user 1's followers page
whose follower id 2 has no user document in the index, the listing request
fails with 500 - the missing document is not silently omitted and the
request does not succeed with 200. -/
theorem list_followers_orphan_500 :
    (list_followers 1 none none esOrphanFollow).status = 500 ∧
    (list_followers 1 none none esOrphanFollow).status ≠ 200 ∧
    (list_followers 1 none none esOrphanFollow).items = [] := by
  decide

/-- C8: follow_user answers 400 on a self-follow regardless of prior state,
400 (with no store change) when the (follower, followee) row already
exists, and otherwise appends exactly one new Follow row. -/
theorem follow_user_spec (u v : Nat) (db : Db) (es : Es) :
    (u = v → follow_user u v db es = { status := 400, db := db, es := es }) ∧
    (u ≠ v → (∃ f ∈ db.follows, f.follower_id = u ∧ f.followee_id = v) →
      (follow_user u v db es).status = 400 ∧ (follow_user u v db es).db = db) ∧
    (u ≠ v → (∀ f ∈ db.follows, ¬(f.follower_id = u ∧ f.followee_id = v)) →
      (follow_user u v db es).status = 200 ∧
      (follow_user u v db es).db.follows =
        db.follows ++ [{ follower_id := u, followee_id := v }]) := by
  refine ⟨fun h => by simp [follow_user, h], ?_, ?_⟩
  · intro hne hex
    cases hfind : db.follows.find?
        (fun f => decide (f.follower_id = u) && decide (f.followee_id = v)) with
    | none =>
      rw [List.find?_eq_none] at hfind
      obtain ⟨f, hf, h1, h2⟩ := hex
      exact absurd (by simp [h1, h2]) (hfind f hf)
    | some g => simp [follow_user, hne, hfind]
  · intro hne hall
    have hfind : db.follows.find?
        (fun f => decide (f.follower_id = u) && decide (f.followee_id = v)) = none := by
      rw [List.find?_eq_none]
      intro f hf
      simp only [Bool.and_eq_true, decide_eq_true_eq, not_and]
      intro h1 h2
      exact hall f hf ⟨h1, h2⟩
    simp [follow_user, hne, hfind]

/-- C8 witness: on empty stores, user 1 follows user 2 and exactly one
Follow row appears. -/
theorem follow_user_spec_witness :
    (1 : Nat) ≠ 2 ∧
    (follow_user 1 2 dbEmpty esEmpty).status = 200 ∧
    (follow_user 1 2 dbEmpty esEmpty).db.follows =
      dbEmpty.follows ++ [{ follower_id := 1, followee_id := 2 }] := by
  refine ⟨by decide, (follow_user_spec 1 2 dbEmpty esEmpty).2.2 (by decide) ?_⟩
  intro f hf
  simp [dbEmpty] at hf

/-- C4: once the Record Store write has committed, the response status and
the canonical state are the same whether the index is reachable or not, for
every embedded mutating operation: discussion create (201), valid-typed like
create (201), owned like/discussion/comment delete (200), non-duplicate
follow (200) and self user delete (200). Projection and deprojection
failures are swallowed and never change the response. -/
theorem projection_failures_nonfatal (db : Db) (es : Es) (d : Bool) :
    (∀ uid text image hashtags now,
      (create_discussion uid text image hashtags now db { es with down := d }).status = 201 ∧
      (create_discussion uid text image hashtags now db { es with down := d }).db =
        (create_discussion uid text image hashtags now db es).db) ∧
    (∀ uid ty eid now, (ty = "discussion" ∨ ty = "comment") →
      (create_like uid ty eid now db { es with down := d }).status = 201 ∧
      (create_like uid ty eid now db { es with down := d }).db =
        (create_like uid ty eid now db es).db) ∧
    (∀ uid lid like, db.likes.find? (fun l => decide (l.id = lid)) = some like →
      like.user_id = uid →
      (delete_like uid lid db { es with down := d }).status = 200 ∧
      (delete_like uid lid db { es with down := d }).db =
        (delete_like uid lid db es).db) ∧
    (∀ uid did dr, db.discussions.find? (fun x => decide (x.id = did)) = some dr →
      dr.user_id = uid →
      (delete_discussion uid did db { es with down := d }).status = 200 ∧
      (delete_discussion uid did db { es with down := d }).db =
        (delete_discussion uid did db es).db) ∧
    (∀ uid cid cr, db.comments.find? (fun x => decide (x.id = cid)) = some cr →
      cr.user_id = uid →
      (delete_comment uid cid db { es with down := d }).status = 200 ∧
      (delete_comment uid cid db { es with down := d }).db =
        (delete_comment uid cid db es).db) ∧
    (∀ u v, u ≠ v →
      db.follows.find? (fun f =>
        decide (f.follower_id = u) && decide (f.followee_id = v)) = none →
      (follow_user u v db { es with down := d }).status = 200 ∧
      (follow_user u v db { es with down := d }).db =
        (follow_user u v db es).db) ∧
    (∀ u x, db.users.find? (fun y => decide (y.id = u)) = some x →
      (delete_user u u db { es with down := d }).status = 200 ∧
      (delete_user u u db { es with down := d }).db =
        (delete_user u u db es).db) := by
  refine ⟨fun uid text image hashtags now => ⟨rfl, rfl⟩, ?_, ?_, ?_, ?_, ?_, ?_⟩
  · intro uid ty eid now hty
    have hcond : ¬(ty ≠ "discussion" ∧ ty ≠ "comment") := by
      rcases hty with h | h <;> simp [h]
    constructor <;> simp [create_like, hcond]
  · intro uid lid like hfind hown
    constructor <;> simp [delete_like, hfind, hown]
  · intro uid did dr hfind hown
    constructor <;> simp [delete_discussion, hfind, hown]
  · intro uid cid cr hfind hown
    constructor <;> simp [delete_comment, hfind, hown]
  · intro u v hne hfind
    constructor <;> simp [follow_user, hne, hfind]
  · intro u x hfind
    constructor <;> simp [delete_user, hfind]

/-- C4 witness: with one owned like in the store and the index down, the
three mutating paths still answer their success statuses. -/
theorem projection_failures_nonfatal_witness :
    (create_discussion 1 "t" "i" "#h" 0 dbEmpty { esEmpty with down := true }).status = 201 ∧
    (create_like 1 "discussion" 7 0 dbEmpty { esEmpty with down := true }).status = 201 ∧
    ((create_like 1 "discussion" 7 0 dbEmpty esEmpty).db.likes.find?
        (fun l => decide (l.id = 1)) =
      some { id := 1, target_entity_id := 1, user_id := 1, created_at := 0 }) ∧
    (delete_like 1 1 (create_like 1 "discussion" 7 0 dbEmpty esEmpty).db
      { esEmpty with down := true }).status = 200 := by
  refine ⟨(projection_failures_nonfatal dbEmpty esEmpty true).1 1 "t" "i" "#h" 0 |>.1,
    ((projection_failures_nonfatal dbEmpty esEmpty true).2.1 1 "discussion" 7 0
      (Or.inl rfl)).1, by decide, ?_⟩
  exact ((projection_failures_nonfatal
      (create_like 1 "discussion" 7 0 dbEmpty esEmpty).db esEmpty true).2.2.1 1 1
    { id := 1, target_entity_id := 1, user_id := 1, created_at := 0 }
    (by decide) rfl).1

/-- A TargetEntity row matching (entity_type, entity_id) is found by the
create-or-get lookup, and under the uniqueness invariant the row found is
that row. -/
theorem find?_targetEntity_of_unique (l : List TargetEntityRow) (ty : String)
    (eid : Nat) (t : TargetEntityRow)
    (hp : List.Pairwise
      (fun a b => ¬(a.entity_type = b.entity_type ∧ a.entity_id = b.entity_id)) l)
    (ht : t ∈ l) (hty : t.entity_type = ty) (heid : t.entity_id = eid) :
    l.find? (fun x => decide (x.entity_type = ty) && decide (x.entity_id = eid)) =
      some t := by
  induction l with
  | nil => cases ht
  | cons a l ih =>
    rw [List.pairwise_cons] at hp
    rcases List.mem_cons.mp ht with rfl | htl
    · simp [List.find?_cons_of_pos, hty, heid]
    · have hpa : ¬(a.entity_type = ty ∧ a.entity_id = eid) := by
        intro ⟨h1, h2⟩
        exact hp.1 t htl ⟨h1.trans hty.symm, h2.trans heid.symm⟩
      rw [List.find?_cons_of_neg _ (by simpa using hpa)]
      exact ih hp.2 htl

/-- create_like preserves the TargetEntity uniqueness invariant. -/
theorem create_like_teUnique (uid : Nat) (ty : String) (eid now : Nat)
    (db : Db) (es : Es) (h : TargetEntityUnique db) :
    TargetEntityUnique (create_like uid ty eid now db es).db := by
  unfold create_like
  split
  · exact h
  · unfold TargetEntityUnique resolveTargetEntity at *
    cases hfind : db.target_entities.find?
        (fun t => decide (t.entity_type = ty) && decide (t.entity_id = eid)) with
    | some t => simpa [hfind] using h
    | none =>
      rw [List.find?_eq_none] at hfind
      simp only [hfind]
      simp only [List.pairwise_append]
      refine ⟨h, List.pairwise_singleton _ _, ?_⟩
      intro a ha b hb
      simp only [List.mem_singleton] at hb
      subst hb
      intro ⟨h1, h2⟩
      exact absurd (by simp [h1, h2]) (hfind a ha)

/-- delete_like preserves the TargetEntity uniqueness invariant. -/
theorem delete_like_teUnique (uid lid : Nat) (db : Db) (es : Es)
    (h : TargetEntityUnique db) :
    TargetEntityUnique (delete_like uid lid db es).db := by
  unfold TargetEntityUnique at h ⊢
  cases hfind : db.likes.find? (fun l => decide (l.id = lid)) with
  | none => simpa [delete_like, hfind] using h
  | some like =>
    simp only [delete_like, hfind]
    split_ifs with h1 h2
    · exact h
    · exact List.Pairwise.sublist (List.filter_sublist _) h
    · exact h

/-- One like-service request preserves the TargetEntity uniqueness invariant. -/
theorem likeStep_teUnique (s : Db × Es) (op : LikeOp)
    (h : TargetEntityUnique s.1) : TargetEntityUnique (likeStep s op).1 := by
  cases op with
  | create uid ty eid now => exact create_like_teUnique uid ty eid now s.1 s.2 h
  | delete uid lid => exact delete_like_teUnique uid lid s.1 s.2 h

/-- Any sequence of like-service requests preserves the invariant. -/
theorem runLikeOps_teUnique (ops : List LikeOp) (s : Db × Es)
    (h : TargetEntityUnique s.1) : TargetEntityUnique (runLikeOps s ops).1 := by
  induction ops generalizing s with
  | nil => exact h
  | cons op rest ih => exact ih (likeStep s op) (likeStep_teUnique s op h)

/-- C2: starting from any state satisfying the invariant, (i) every sequence
of like create/delete requests preserves "at most one TargetEntity row per
(entity_type, entity_id) pair"; (ii) creating a like whose pair already has
a TargetEntity row adds no TargetEntity row and the inserted Like
references the existing row's id; (iii) creating a like for a pair with no
TargetEntity row appends exactly one fresh row for that pair. -/
theorem targetEntity_dedup_invariant (db : Db) (es : Es)
    (hinv : TargetEntityUnique db) :
    (∀ ops : List LikeOp, TargetEntityUnique (runLikeOps (db, es) ops).1) ∧
    (∀ uid ty eid now t, t ∈ db.target_entities → t.entity_type = ty →
      t.entity_id = eid →
      (create_like uid ty eid now db es).db.target_entities = db.target_entities ∧
      ((ty = "discussion" ∨ ty = "comment") →
        ∃ l, (create_like uid ty eid now db es).db.likes = db.likes ++ [l] ∧
          l.target_entity_id = t.id)) ∧
    (∀ uid ty eid now, (ty = "discussion" ∨ ty = "comment") →
      (∀ t ∈ db.target_entities, ¬(t.entity_type = ty ∧ t.entity_id = eid)) →
      (create_like uid ty eid now db es).db.target_entities =
        db.target_entities ++
          [{ id := db.next_target_entity_id, entity_type := ty,
             entity_id := eid }]) := by
  refine ⟨fun ops => runLikeOps_teUnique ops (db, es) hinv, ?_, ?_⟩
  · intro uid ty eid now t ht hty heid
    have hfind := find?_targetEntity_of_unique db.target_entities ty eid t hinv ht hty heid
    by_cases hcond : ty ≠ "discussion" ∧ ty ≠ "comment"
    · refine ⟨by simp [create_like, hcond], ?_⟩
      intro hvalid
      rcases hvalid with h | h
      · exact absurd h hcond.1
      · exact absurd h hcond.2
    · constructor
      · simp [create_like, hcond, resolveTargetEntity, hfind]
      · intro _
        refine ⟨⟨db.next_like_id, t.id, uid, now⟩, ?_, rfl⟩
        simp [create_like, hcond, resolveTargetEntity, hfind]
  · intro uid ty eid now hty hnone
    have hcond : ¬(ty ≠ "discussion" ∧ ty ≠ "comment") := by
      rcases hty with h | h <;> simp [h]
    have hfind : db.target_entities.find?
        (fun x => decide (x.entity_type = ty) && decide (x.entity_id = eid)) = none := by
      rw [List.find?_eq_none]
      intro x hx
      simp only [Bool.and_eq_true, decide_eq_true_eq, not_and]
      intro h1 h2
      exact hnone x hx ⟨h1, h2⟩
    simp [create_like, hcond, resolveTargetEntity, hfind]

/-- C2 witness: two likes of (comment, 5) by different users then both
deletions, starting from empty stores; the invariant holds, the second like
reuses TargetEntity 1, and the first like created it. -/
theorem targetEntity_dedup_invariant_witness :
    TargetEntityUnique
      (runLikeOps (dbEmpty, esEmpty)
        [LikeOp.create 10 "comment" 5 0, LikeOp.create 11 "comment" 5 1,
         LikeOp.delete 10 1, LikeOp.delete 11 2]).1 ∧
    (create_like 11 "comment" 5 1 (create_like 10 "comment" 5 0 dbEmpty esEmpty).db
        (create_like 10 "comment" 5 0 dbEmpty esEmpty).es).db.target_entities =
      (create_like 10 "comment" 5 0 dbEmpty esEmpty).db.target_entities := by
  constructor
  · exact (targetEntity_dedup_invariant dbEmpty esEmpty List.Pairwise.nil).1 _
  · exact ((targetEntity_dedup_invariant (create_like 10 "comment" 5 0 dbEmpty esEmpty).db
      (create_like 10 "comment" 5 0 dbEmpty esEmpty).es
      (by unfold TargetEntityUnique; decide)).2.1 11 "comment" 5 1
      ⟨1, "comment", 5⟩ (by decide) rfl rfl).1

/-- C3: deleting an owned, existing like answers 200; if no other like row
references its TargetEntity, the TargetEntity row is removed (the table is
filtered on that id); if at least one other like still references it, the
TargetEntity table is left unchanged. -/
theorem delete_like_release_target (uid lid : Nat) (db : Db) (es : Es)
    (like : LikeRow)
    (hfind : db.likes.find? (fun l => decide (l.id = lid)) = some like)
    (hown : like.user_id = uid) :
    (delete_like uid lid db es).status = 200 ∧
    ((∀ l ∈ db.likes, l.id ≠ lid → l.target_entity_id ≠ like.target_entity_id) →
      (delete_like uid lid db es).db.target_entities =
        db.target_entities.filter
          (fun t => decide (t.id ≠ like.target_entity_id))) ∧
    ((∃ l ∈ db.likes, l.id ≠ lid ∧ l.target_entity_id = like.target_entity_id) →
      (delete_like uid lid db es).db.target_entities = db.target_entities) := by
  have hcond : ¬(like.user_id ≠ uid) := by simp [hown]
  refine ⟨?_, ?_, ?_⟩
  · simp only [delete_like, hfind]
    rw [if_neg hcond]
  · intro hlast
    have hnil : (db.likes.filter (fun l => decide (l.id ≠ lid))).filter
        (fun l => decide (l.target_entity_id = like.target_entity_id)) = [] := by
      rw [List.filter_eq_nil_iff]
      intro x hx
      rw [List.mem_filter] at hx
      simp only [decide_eq_true_eq] at hx ⊢
      exact hlast x hx.1 (by simpa using hx.2)
    simp only [delete_like, hfind]
    rw [if_neg hcond, if_pos (by rw [hnil]; rfl)]
  · intro hother
    obtain ⟨l, hl, hne, hte⟩ := hother
    have hmem : l ∈ (db.likes.filter (fun x => decide (x.id ≠ lid))).filter
        (fun x => decide (x.target_entity_id = like.target_entity_id)) := by
      rw [List.mem_filter, List.mem_filter]
      exact ⟨⟨hl, by simpa using hne⟩, by simpa using hte⟩
    have hpos : ¬(((db.likes.filter (fun x => decide (x.id ≠ lid))).filter
        (fun x => decide (x.target_entity_id = like.target_entity_id))).length = 0) := by
      intro h0
      rw [List.length_eq_zero] at h0
      rw [h0] at hmem
      cases hmem
    simp only [delete_like, hfind]
    rw [if_neg hcond, if_neg hpos]

/-- C3 witness: two users like (comment, 5); deleting the first like keeps
the TargetEntity (the other like remains), deleting an only like on fresh
stores removes it. -/
theorem delete_like_release_target_witness :
    ((create_like 11 "comment" 5 1 (create_like 10 "comment" 5 0 dbEmpty esEmpty).db
        (create_like 10 "comment" 5 0 dbEmpty esEmpty).es).db.likes.find?
      (fun l => decide (l.id = 1)) =
        some { id := 1, target_entity_id := 1, user_id := 10, created_at := 0 }) ∧
    (delete_like 10 1
      (create_like 11 "comment" 5 1 (create_like 10 "comment" 5 0 dbEmpty esEmpty).db
        (create_like 10 "comment" 5 0 dbEmpty esEmpty).es).db
      (create_like 11 "comment" 5 1 (create_like 10 "comment" 5 0 dbEmpty esEmpty).db
        (create_like 10 "comment" 5 0 dbEmpty esEmpty).es).es).db.target_entities =
      (create_like 11 "comment" 5 1 (create_like 10 "comment" 5 0 dbEmpty esEmpty).db
        (create_like 10 "comment" 5 0 dbEmpty esEmpty).es).db.target_entities := by
  refine ⟨by decide, ?_⟩
  exact (delete_like_release_target 10 1 _ _
      { id := 1, target_entity_id := 1, user_id := 10, created_at := 0 }
      (by decide) rfl).2.2
    ⟨{ id := 2, target_entity_id := 1, user_id := 11, created_at := 1 },
      by decide, by decide, rfl⟩

/-- The two-step join aborts as soon as one referenced id has no document. -/
theorem fetchUserDocs_none (users : List (Nat × UserDoc)) (ids : List Nat)
    (h : ∃ i ∈ ids, esGet users i = none) : fetchUserDocs users ids = none := by
  induction ids with
  | nil => obtain ⟨i, hi, _⟩ := h; cases hi
  | cons a rest ih =>
    obtain ⟨i, hi, hnone⟩ := h
    rcases List.mem_cons.mp hi with rfl | htl
    · simp [fetchUserDocs, hnone]
    · cases hga : esGet users a with
      | none => simp [fetchUserDocs, hga]
      | some d => simp [fetchUserDocs, hga, ih ⟨i, htl, hnone⟩]

/-- When every referenced id has a document the join returns one entry per id. -/
theorem fetchUserDocs_some (users : List (Nat × UserDoc)) (ids : List Nat)
    (h : ∀ i ∈ ids, (esGet users i).isSome) :
    ∃ l, fetchUserDocs users ids = some l ∧ l.length = ids.length := by
  induction ids with
  | nil => exact ⟨[], rfl, rfl⟩
  | cons a rest ih =>
    have ha := h a (List.mem_cons_self a rest)
    cases hga : esGet users a with
    | none => rw [hga] at ha; cases ha
    | some d =>
      obtain ⟨l, hl, hlen⟩ := ih (fun i hi => h i (List.mem_cons_of_mem a hi))
      exact ⟨d :: l, by simp [fetchUserDocs, hga, hl], by simp [hlen]⟩

/-- The pagination guard never fires for a reachable index, page ≥ 1 and
per_page ≥ 0. -/
theorem pageGuard (d : Bool) (page per_page : Int) (hdown : d = false)
    (hpage : 1 ≤ page) (hpp : 0 ≤ per_page) :
    ¬(d = true ∨ (page - 1) * per_page < 0 ∨ per_page < 0) := by
  rw [hdown]
  simp only [Bool.false_eq_true, false_or, not_or, not_lt]
  exact ⟨mul_nonneg (by omega) hpp, hpp⟩

/-- C5 amended: when a follow document on the requested page references a
user id with no User document in the index, the per-id index lookup raises
and the whole followers (resp. following) listing fails with 500 and an
empty page - entries are never silently omitted; when every referenced id
resolves, the request answers 200 with one entry per follow document on
the page. -/
theorem list_follow_join_aborts_on_missing_user (uid : Nat) (page per_page : Int)
    (es : Es) (hdown : es.down = false) (hpage : 1 ≤ page) (hpp : 0 ≤ per_page) :
    ((∃ p ∈ ((es.follows.filter (fun p => decide (p.2.followee_id = uid))).drop
        ((page - 1) * per_page).toNat).take per_page.toNat,
        esGet es.users p.2.follower_id = none) →
      (list_followers uid (some page) (some per_page) es).status = 500 ∧
      (list_followers uid (some page) (some per_page) es).items = []) ∧
    ((∀ p ∈ ((es.follows.filter (fun p => decide (p.2.followee_id = uid))).drop
        ((page - 1) * per_page).toNat).take per_page.toNat,
        (esGet es.users p.2.follower_id).isSome) →
      (list_followers uid (some page) (some per_page) es).status = 200 ∧
      (list_followers uid (some page) (some per_page) es).items.length =
        (((es.follows.filter (fun p => decide (p.2.followee_id = uid))).drop
          ((page - 1) * per_page).toNat).take per_page.toNat).length) ∧
    ((∃ p ∈ ((es.follows.filter (fun p => decide (p.2.follower_id = uid))).drop
        ((page - 1) * per_page).toNat).take per_page.toNat,
        esGet es.users p.2.followee_id = none) →
      (list_following uid (some page) (some per_page) es).status = 500 ∧
      (list_following uid (some page) (some per_page) es).items = []) ∧
    ((∀ p ∈ ((es.follows.filter (fun p => decide (p.2.follower_id = uid))).drop
        ((page - 1) * per_page).toNat).take per_page.toNat,
        (esGet es.users p.2.followee_id).isSome) →
      (list_following uid (some page) (some per_page) es).status = 200 ∧
      (list_following uid (some page) (some per_page) es).items.length =
        (((es.follows.filter (fun p => decide (p.2.follower_id = uid))).drop
          ((page - 1) * per_page).toNat).take per_page.toNat).length) := by
  have hguard := pageGuard es.down page per_page hdown hpage hpp
  refine ⟨?_, ?_, ?_, ?_⟩
  · intro hmiss
    obtain ⟨p, hp, hnone⟩ := hmiss
    have hfetch := fetchUserDocs_none es.users
      ((((es.follows.filter (fun q => decide (q.2.followee_id = uid))).drop
        ((page - 1) * per_page).toNat).take per_page.toNat).map
          (fun q => q.2.follower_id))
      ⟨p.2.follower_id, List.mem_map_of_mem _ hp, hnone⟩
    constructor <;>
      simp only [list_followers, Option.getD_some] <;>
      rw [if_neg hguard, hfetch]
  · intro hall
    obtain ⟨l, hl, hlen⟩ := fetchUserDocs_some es.users
      ((((es.follows.filter (fun q => decide (q.2.followee_id = uid))).drop
        ((page - 1) * per_page).toNat).take per_page.toNat).map
          (fun q => q.2.follower_id))
      (by intro i hi
          obtain ⟨p, hp, rfl⟩ := List.mem_map.mp hi
          exact hall p hp)
    constructor <;>
      simp only [list_followers, Option.getD_some] <;>
      rw [if_neg hguard, hl]
    simpa using hlen
  · intro hmiss
    obtain ⟨p, hp, hnone⟩ := hmiss
    have hfetch := fetchUserDocs_none es.users
      ((((es.follows.filter (fun q => decide (q.2.follower_id = uid))).drop
        ((page - 1) * per_page).toNat).take per_page.toNat).map
          (fun q => q.2.followee_id))
      ⟨p.2.followee_id, List.mem_map_of_mem _ hp, hnone⟩
    constructor <;>
      simp only [list_following, Option.getD_some] <;>
      rw [if_neg hguard, hfetch]
  · intro hall
    obtain ⟨l, hl, hlen⟩ := fetchUserDocs_some es.users
      ((((es.follows.filter (fun q => decide (q.2.follower_id = uid))).drop
        ((page - 1) * per_page).toNat).take per_page.toNat).map
          (fun q => q.2.followee_id))
      (by intro i hi
          obtain ⟨p, hp, rfl⟩ := List.mem_map.mp hi
          exact hall p hp)
    constructor <;>
      simp only [list_following, Option.getD_some] <;>
      rw [if_neg hguard, hl]
    simpa using hlen

/-- C5 amended witness: on the index with one orphan follow document on the
first followers page of user 1, the listing answers 500 with no entries. -/
theorem list_follow_join_aborts_on_missing_user_witness :
    esOrphanFollow.down = false ∧
    (list_followers 1 (some 1) (some 10) esOrphanFollow).status = 500 ∧
    (list_followers 1 (some 1) (some 10) esOrphanFollow).items = [] := by
  refine ⟨rfl, ?_⟩
  exact (list_follow_join_aborts_on_missing_user 1 1 10 esOrphanFollow rfl
      (by decide) (by decide)).1
    ⟨(followKey 2 1, { follower_id := 2, followee_id := 1 }), by decide, rfl⟩

/-- The search window returns at most `size` documents and is sorted in
descending key order. -/
theorem esSearchWindow_sorted {δ : Type} (idx : List (Nat × δ))
    (pred : Nat × δ → Bool) (key : δ → Nat) (start size : Nat) :
    (esSearchWindow idx pred key start size).length ≤ size ∧
    List.Pairwise (descBy key) (esSearchWindow idx pred key start size) := by
  constructor
  · rw [esSearchWindow, List.length_take]
    exact min_le_left _ _
  · have hs : List.Sorted (descBy key) ((idx.filter pred).insertionSort (descBy key)) :=
      List.sorted_insertionSort (descBy key) (idx.filter pred)
    exact List.Pairwise.sublist
      ((List.take_sublist _ _).trans (List.drop_sublist _ _)) hs

/-- One paginated likes listing satisfies the Query Router contract. -/
theorem list_user_likes_spec (uid : Nat) (page per_page : Int) (es : Es)
    (hdown : es.down = false) (hpage : 1 ≤ page) (hpp : 0 ≤ per_page) :
    (list_user_likes uid (some page) (some per_page) es).status = 200 ∧
    (list_user_likes uid (some page) (some per_page) es).items =
      (esSearchWindow es.likes (fun p => decide (p.2.user_id = uid))
        LikeDoc.created_at ((page - 1) * per_page).toNat per_page.toNat).map
        (fun p => ⟨p.1, p.2.target_entity_id, p.2.entity_type, p.2.entity_id,
          p.2.created_at⟩) ∧
    (list_user_likes uid (some page) (some per_page) es).items.length ≤
      per_page.toNat ∧
    List.Pairwise (fun a b => b.created_at ≤ a.created_at)
      (list_user_likes uid (some page) (some per_page) es).items ∧
    (list_user_likes uid (some page) (some per_page) es).total =
      (es.likes.filter (fun p => decide (p.2.user_id = uid))).length := by
  have hguard := pageGuard es.down page per_page hdown hpage hpp
  have hw := esSearchWindow_sorted es.likes (fun p => decide (p.2.user_id = uid))
    LikeDoc.created_at ((page - 1) * per_page).toNat per_page.toNat
  refine ⟨?_, ?_, ?_, ?_, ?_⟩ <;>
    simp only [list_user_likes, Option.getD_some] <;>
    rw [if_neg hguard]
  · simpa using hw.1
  · exact List.Pairwise.map _ (fun a b h => h) hw.2

/-- One paginated discussions listing satisfies the Query Router contract. -/
theorem list_user_discussions_spec (uid : Nat) (page per_page : Int) (es : Es)
    (hdown : es.down = false) (hpage : 1 ≤ page) (hpp : 0 ≤ per_page) :
    (list_user_discussions uid (some page) (some per_page) es).status = 200 ∧
    (list_user_discussions uid (some page) (some per_page) es).items =
      (esSearchWindow es.discussions (fun p => decide (p.2.user_id = uid))
        DiscussionDoc.created_on ((page - 1) * per_page).toNat per_page.toNat).map
        (fun p => ⟨p.1, p.2.text, p.2.image, p.2.hashtags, p.2.created_on⟩) ∧
    (list_user_discussions uid (some page) (some per_page) es).items.length ≤
      per_page.toNat ∧
    List.Pairwise (fun a b => b.created_on ≤ a.created_on)
      (list_user_discussions uid (some page) (some per_page) es).items ∧
    (list_user_discussions uid (some page) (some per_page) es).total =
      (es.discussions.filter (fun p => decide (p.2.user_id = uid))).length := by
  have hguard := pageGuard es.down page per_page hdown hpage hpp
  have hw := esSearchWindow_sorted es.discussions
    (fun p => decide (p.2.user_id = uid)) DiscussionDoc.created_on
    ((page - 1) * per_page).toNat per_page.toNat
  refine ⟨?_, ?_, ?_, ?_, ?_⟩ <;>
    simp only [list_user_discussions, Option.getD_some] <;>
    rw [if_neg hguard]
  · simpa using hw.1
  · exact List.Pairwise.map _ (fun a b h => h) hw.2

/-- One paginated comments listing satisfies the Query Router contract. -/
theorem list_user_comments_spec (uid : Nat) (page per_page : Int) (es : Es)
    (hdown : es.down = false) (hpage : 1 ≤ page) (hpp : 0 ≤ per_page) :
    (list_user_comments uid (some page) (some per_page) es).status = 200 ∧
    (list_user_comments uid (some page) (some per_page) es).items =
      (esSearchWindow es.comments (fun p => decide (p.2.user_id = uid))
        CommentDoc.created_on ((page - 1) * per_page).toNat per_page.toNat).map
        (fun p => ⟨p.1, p.2.text, p.2.discussion_id, p.2.created_on⟩) ∧
    (list_user_comments uid (some page) (some per_page) es).items.length ≤
      per_page.toNat ∧
    List.Pairwise (fun a b => b.created_on ≤ a.created_on)
      (list_user_comments uid (some page) (some per_page) es).items ∧
    (list_user_comments uid (some page) (some per_page) es).total =
      (es.comments.filter (fun p => decide (p.2.user_id = uid))).length := by
  have hguard := pageGuard es.down page per_page hdown hpage hpp
  have hw := esSearchWindow_sorted es.comments
    (fun p => decide (p.2.user_id = uid)) CommentDoc.created_on
    ((page - 1) * per_page).toNat per_page.toNat
  refine ⟨?_, ?_, ?_, ?_, ?_⟩ <;>
    simp only [list_user_comments, Option.getD_some] <;>
    rw [if_neg hguard]
  · simpa using hw.1
  · exact List.Pairwise.map _ (fun a b h => h) hw.2

/-- C7: each "list mine" endpoint defaults page to 1 and per_page to 10 when
the parameters are absent; for any page ≥ 1 and per_page ≥ 0 on a reachable
index, it answers 200 with exactly the matching documents sorted by
descending creation timestamp, windowed at offset (page-1)*per_page with at
most per_page entries, and total equal to the index's full matching count
(hence independent of page). -/
theorem list_mine_pagination (uid : Nat) (es : Es) (page per_page : Int)
    (hdown : es.down = false) (hpage : 1 ≤ page) (hpp : 0 ≤ per_page) :
    (list_user_discussions uid none none es =
      list_user_discussions uid (some 1) (some 10) es ∧
     list_user_comments uid none none es =
      list_user_comments uid (some 1) (some 10) es ∧
     list_user_likes uid none none es =
      list_user_likes uid (some 1) (some 10) es) ∧
    ((list_user_discussions uid (some page) (some per_page) es).status = 200 ∧
     (list_user_discussions uid (some page) (some per_page) es).items =
       (esSearchWindow es.discussions (fun p => decide (p.2.user_id = uid))
         DiscussionDoc.created_on ((page - 1) * per_page).toNat per_page.toNat).map
         (fun p => ⟨p.1, p.2.text, p.2.image, p.2.hashtags, p.2.created_on⟩) ∧
     (list_user_discussions uid (some page) (some per_page) es).items.length ≤
       per_page.toNat ∧
     List.Pairwise (fun a b => b.created_on ≤ a.created_on)
       (list_user_discussions uid (some page) (some per_page) es).items ∧
     (list_user_discussions uid (some page) (some per_page) es).total =
       (es.discussions.filter (fun p => decide (p.2.user_id = uid))).length) ∧
    ((list_user_comments uid (some page) (some per_page) es).status = 200 ∧
     (list_user_comments uid (some page) (some per_page) es).items =
       (esSearchWindow es.comments (fun p => decide (p.2.user_id = uid))
         CommentDoc.created_on ((page - 1) * per_page).toNat per_page.toNat).map
         (fun p => ⟨p.1, p.2.text, p.2.discussion_id, p.2.created_on⟩) ∧
     (list_user_comments uid (some page) (some per_page) es).items.length ≤
       per_page.toNat ∧
     List.Pairwise (fun a b => b.created_on ≤ a.created_on)
       (list_user_comments uid (some page) (some per_page) es).items ∧
     (list_user_comments uid (some page) (some per_page) es).total =
       (es.comments.filter (fun p => decide (p.2.user_id = uid))).length) ∧
    ((list_user_likes uid (some page) (some per_page) es).status = 200 ∧
     (list_user_likes uid (some page) (some per_page) es).items =
       (esSearchWindow es.likes (fun p => decide (p.2.user_id = uid))
         LikeDoc.created_at ((page - 1) * per_page).toNat per_page.toNat).map
         (fun p => ⟨p.1, p.2.target_entity_id, p.2.entity_type, p.2.entity_id,
           p.2.created_at⟩) ∧
     (list_user_likes uid (some page) (some per_page) es).items.length ≤
       per_page.toNat ∧
     List.Pairwise (fun a b => b.created_at ≤ a.created_at)
       (list_user_likes uid (some page) (some per_page) es).items ∧
     (list_user_likes uid (some page) (some per_page) es).total =
       (es.likes.filter (fun p => decide (p.2.user_id = uid))).length) :=
  ⟨⟨rfl, rfl, rfl⟩,
    list_user_discussions_spec uid page per_page es hdown hpage hpp,
    list_user_comments_spec uid page per_page es hdown hpage hpp,
    list_user_likes_spec uid page per_page es hdown hpage hpp⟩

/-- A small populated index: user 1 has three likes with distinct timestamps
and one discussion, user 2 has one like. -/
def esSample : Es :=
  { down := false, users := [], follows := [],
    likes := [(1, { user_id := 1, target_entity_id := 1, entity_type := "comment",
                    entity_id := 2, created_at := 5 }),
              (2, { user_id := 1, target_entity_id := 2, entity_type := "comment",
                    entity_id := 3, created_at := 9 }),
              (3, { user_id := 2, target_entity_id := 2, entity_type := "comment",
                    entity_id := 3, created_at := 7 }),
              (4, { user_id := 1, target_entity_id := 3, entity_type := "discussion",
                    entity_id := 4, created_at := 1 })],
    discussions := [(6, { text := "hello", image := "", hashtags := "#a",
                          created_on := 2, user_id := 1 })],
    comments := [] }

/-- C7 witness: page 2 with one like per page for user 1 on the sample index
answers 200, one item, total 3, in descending timestamp order. -/
theorem list_mine_pagination_witness :
    esSample.down = false ∧ (1 : Int) ≤ 2 ∧ (0 : Int) ≤ 1 ∧
    (list_user_likes 1 (some 2) (some 1) esSample).status = 200 ∧
    (list_user_likes 1 (some 2) (some 1) esSample).total = 3 ∧
    (list_user_likes 1 (some 2) (some 1) esSample).items.length ≤ 1 ∧
    list_user_likes 1 none none esSample =
      list_user_likes 1 (some 1) (some 10) esSample := by
  obtain ⟨hdef, _, _, hlikes⟩ :=
    list_mine_pagination 1 esSample 2 1 rfl (by decide) (by decide)
  exact ⟨rfl, by decide, by decide, hlikes.1, hlikes.2.2.2.2, by decide, hdef.2.2⟩

/-- A follow-document delete never touches the down flag or the users index. -/
theorem delete_follow_es_effect (a b : Nat) (es : Es) :
    (delete_follow_from_elasticsearch a b es).down = es.down ∧
    (delete_follow_from_elasticsearch a b es).users = es.users := by
  by_cases hd : es.down <;> simp [delete_follow_from_elasticsearch, hd]

/-- Removing a document id leaves no document under that id. -/
theorem esGet_esRemove_self {κ δ : Type} [DecidableEq κ] (idx : List (κ × δ))
    (k : κ) : esGet (esRemove idx k) k = none := by
  have hfind : (esRemove idx k).find? (fun p => decide (p.1 = k)) = none := by
    rw [List.find?_eq_none]
    intro x hx
    rw [esRemove, List.mem_filter] at hx
    simpa using hx.2
  simp [esGet, hfind]

/-- Removing one document id cannot make another id reappear. -/
theorem esGet_esRemove_none {κ δ : Type} [DecidableEq κ] (idx : List (κ × δ))
    (k k2 : κ) (h : esGet idx k = none) : esGet (esRemove idx k2) k = none := by
  rw [esGet, Option.map_eq_none'] at h ⊢
  rw [List.find?_eq_none] at h ⊢
  intro x hx
  exact h x (List.mem_of_mem_filter hx)

/-- A follow-document delete leaves an already-absent follow key absent. -/
theorem delete_follow_preserves_none (a b : Nat) (es : Es) (k : String)
    (h : esGet es.follows k = none) :
    esGet (delete_follow_from_elasticsearch a b es).follows k = none := by
  by_cases hd : es.down
  · simpa [delete_follow_from_elasticsearch, hd] using h
  · simp only [delete_follow_from_elasticsearch, hd]
    simpa using esGet_esRemove_none es.follows k (followKey a b) h

/-- On a reachable index, a follow-document delete removes its key. -/
theorem delete_follow_removes (a b : Nat) (es : Es) (hd : es.down = false) :
    esGet (delete_follow_from_elasticsearch a b es).follows (followKey a b) = none := by
  simp [delete_follow_from_elasticsearch, hd, esGet_esRemove_self]

/-- The follow-delete loop preserves the down flag. -/
theorem foldl_delete_follow_down (l : List FollowRow) (es : Es) :
    (l.foldl (fun e f => delete_follow_from_elasticsearch f.follower_id f.followee_id e)
      es).down = es.down := by
  induction l generalizing es with
  | nil => rfl
  | cons g t ih =>
    rw [List.foldl_cons, ih]
    exact (delete_follow_es_effect g.follower_id g.followee_id es).1

/-- The follow-delete loop never touches the users index. -/
theorem foldl_delete_follow_users (l : List FollowRow) (es : Es) :
    (l.foldl (fun e f => delete_follow_from_elasticsearch f.follower_id f.followee_id e)
      es).users = es.users := by
  induction l generalizing es with
  | nil => rfl
  | cons g t ih =>
    rw [List.foldl_cons, ih]
    exact (delete_follow_es_effect g.follower_id g.followee_id es).2

/-- The follow-delete loop leaves an already-absent follow key absent. -/
theorem foldl_delete_follow_none (l : List FollowRow) (es : Es) (k : String)
    (h : esGet es.follows k = none) :
    esGet ((l.foldl (fun e f => delete_follow_from_elasticsearch f.follower_id f.followee_id e)
      es)).follows k = none := by
  induction l generalizing es with
  | nil => exact h
  | cons g t ih =>
    rw [List.foldl_cons]
    exact ih _ (delete_follow_preserves_none g.follower_id g.followee_id es k h)

/-- On a reachable index, the follow-delete loop removes the key of every
row it visits. -/
theorem foldl_delete_follow_removes (l : List FollowRow) (es : Es)
    (hd : es.down = false) :
    ∀ f ∈ l, esGet ((l.foldl
        (fun e f => delete_follow_from_elasticsearch f.follower_id f.followee_id e)
      es)).follows (followKey f.follower_id f.followee_id) = none := by
  induction l generalizing es with
  | nil => intro f hf; cases hf
  | cons g t ih =>
    intro f hf
    rw [List.foldl_cons]
    rcases List.mem_cons.mp hf with rfl | htl
    · exact foldl_delete_follow_none t _ _
        (delete_follow_removes f.follower_id f.followee_id es hd)
    · exact ih _ ((delete_follow_es_effect g.follower_id g.followee_id es).1.trans hd)
        f htl

/-- A user-document delete never touches the follows index. -/
theorem delete_user_es_follows (u : Nat) (es : Es) :
    (delete_user_from_elasticsearch u es).follows = es.follows := by
  by_cases hd : es.down <;> simp [delete_user_from_elasticsearch, hd]

/-- On a reachable index, a user-document delete removes the user's document. -/
theorem delete_user_es_removes (u : Nat) (es : Es) (hd : es.down = false) :
    esGet (delete_user_from_elasticsearch u es).users u = none := by
  simp [delete_user_from_elasticsearch, hd, esGet_esRemove_self]

/-- C9: deleting a user is allowed only for the acting identity itself (any
other caller gets 403 with untouched stores); a successful delete answers
200 and leaves no Follow row or follow index document in which the user is
follower or followee, no User row and no user index document for that id -
and the issued index deletes consist of the follow deprojections first,
with the user-document delete strictly last. -/
theorem delete_user_cascades (u : Nat) (db : Db) (es : Es)
    (hdown : es.down = false) (huser : ∃ x ∈ db.users, x.id = u) :
    (∀ w, w ≠ u → delete_user w u db es = { status := 403, db := db, es := es, trace := [] }) ∧
    (delete_user u u db es).status = 200 ∧
    (∀ f ∈ (delete_user u u db es).db.follows, f.follower_id ≠ u ∧ f.followee_id ≠ u) ∧
    (∀ x ∈ (delete_user u u db es).db.users, x.id ≠ u) ∧
    (∀ f ∈ db.follows, (f.follower_id = u ∨ f.followee_id = u) →
      esGet (delete_user u u db es).es.follows
        (followKey f.follower_id f.followee_id) = none) ∧
    esGet (delete_user u u db es).es.users u = none ∧
    (delete_user u u db es).trace.getLast? = some (EsDeleteOp.user u) ∧
    (∀ f ∈ db.follows, (f.follower_id = u ∨ f.followee_id = u) →
      EsDeleteOp.follow f.follower_id f.followee_id ∈
        (delete_user u u db es).trace.dropLast) := by
  have hfind : ∃ x, db.users.find? (fun x => decide (x.id = u)) = some x := by
    cases hf : db.users.find? (fun x => decide (x.id = u)) with
    | none =>
      rw [List.find?_eq_none] at hf
      obtain ⟨x, hx, hxid⟩ := huser
      exact absurd (by simp [hxid]) (hf x hx)
    | some x => exact ⟨x, rfl⟩
  obtain ⟨x0, hf⟩ := hfind
  have hdoomed : ∀ f ∈ db.follows, (f.follower_id = u ∨ f.followee_id = u) →
      f ∈ db.follows.filter (fun f => decide (f.follower_id = u)) ++
        db.follows.filter (fun f => decide (f.followee_id = u)) := by
    intro f hfmem hor
    rw [List.mem_append]
    rcases hor with h | h
    · exact Or.inl (List.mem_filter.mpr ⟨hfmem, by simp [h]⟩)
    · exact Or.inr (List.mem_filter.mpr ⟨hfmem, by simp [h]⟩)
  refine ⟨fun w hw => by simp [delete_user, hw], ?_, ?_, ?_, ?_, ?_, ?_, ?_⟩
  · simp [delete_user, hf]
  · intro f hfmem
    simp only [delete_user, if_neg (by simp : ¬u ≠ u), hf] at hfmem
    rw [List.mem_filter] at hfmem
    simpa using hfmem.2
  · intro x hxmem
    simp only [delete_user, if_neg (by simp : ¬u ≠ u), hf] at hxmem
    rw [List.mem_filter] at hxmem
    simpa using hxmem.2
  · intro f hfmem hor
    simp only [delete_user, if_neg (by simp : ¬u ≠ u), hf]
    rw [delete_user_es_follows]
    exact foldl_delete_follow_removes _ es hdown f (hdoomed f hfmem hor)
  · simp only [delete_user, if_neg (by simp : ¬u ≠ u), hf]
    exact delete_user_es_removes u _ ((foldl_delete_follow_down _ es).trans hdown)
  · simp only [delete_user, if_neg (by simp : ¬u ≠ u), hf]
    exact List.getLast?_concat _
  · intro f hfmem hor
    simp only [delete_user, if_neg (by simp : ¬u ≠ u), hf]
    rw [List.dropLast_concat]
    exact List.mem_map_of_mem _ (hdoomed f hfmem hor)

/-- Record Store with two users and two follow rows involving user 1. -/
def dbFollows : Db :=
  { dbEmpty with
      users := [{ id := 1, name := "ann", mobile_no := "5", email := "a@x",
                  password := "h1", created_at := 0 },
                { id := 2, name := "bob", mobile_no := "6", email := "b@x",
                  password := "h2", created_at := 0 }],
      follows := [{ follower_id := 1, followee_id := 2 },
                  { follower_id := 2, followee_id := 1 }] }

/-- C9 witness: on `dbFollows`, user 1 deletes itself; the request answers
200, no follow row involving user 1 survives, and the last issued index
delete is the user document. -/
theorem delete_user_cascades_witness :
    esEmpty.down = false ∧
    (delete_user 1 1 dbFollows esEmpty).status = 200 ∧
    (∀ f ∈ (delete_user 1 1 dbFollows esEmpty).db.follows,
      f.follower_id ≠ 1 ∧ f.followee_id ≠ 1) ∧
    (delete_user 1 1 dbFollows esEmpty).trace.getLast? =
      some (EsDeleteOp.user 1) := by
  obtain ⟨-, h200, hfol, -, -, -, hlast, -⟩ :=
    delete_user_cascades 1 dbFollows esEmpty rfl
      ⟨{ id := 1, name := "ann", mobile_no := "5", email := "a@x",
         password := "h1", created_at := 0 }, by decide, rfl⟩
  exact ⟨rfl, h200, hfol, hlast⟩

/-- The projected user document of a password variant is identical: the
body carries only name, mobile_no and email. -/
theorem userIndexBody_pwVariant (u v : UserRow) (h : PwVariant u v) :
    userIndexBody u = userIndexBody v := by
  obtain ⟨-, h1, h2, h3, -⟩ := h
  simp [userIndexBody, h1, h2, h3]

/-- Projecting two user tables that agree up to passwords yields the same
users index. -/
theorem projectUsers_pwVariant (us1 us2 : List UserRow)
    (h : List.Forall₂ PwVariant us1 us2) : projectUsers us1 = projectUsers us2 := by
  induction h with
  | nil => rfl
  | cons hab _ ih =>
    simp only [projectUsers, List.map_cons] at ih ⊢
    rw [ih, hab.1, userIndexBody_pwVariant _ _ hab]

/-- C10: the user index document contains only name, mobile_no and email, so
two canonical user tables that differ only in password credentials project
to identical users indexes, and every index-served read path - listing all
users, follower and following listings, and user search under any
Elasticsearch matching behaviour - returns identical responses for them:
the password hash never flows into a read-path response. -/
theorem password_noninterference (us1 us2 : List UserRow)
    (h : List.Forall₂ PwVariant us1 us2) (es0 : Es) :
    (∀ u v, PwVariant u v → userIndexBody u = userIndexBody v) ∧
    projectUsers us1 = projectUsers us2 ∧
    (∀ pageOpt per_pageOpt,
      list_all_users pageOpt per_pageOpt { es0 with users := projectUsers us1 } =
        list_all_users pageOpt per_pageOpt { es0 with users := projectUsers us2 }) ∧
    (∀ uid pageOpt per_pageOpt,
      list_followers uid pageOpt per_pageOpt { es0 with users := projectUsers us1 } =
        list_followers uid pageOpt per_pageOpt { es0 with users := projectUsers us2 }) ∧
    (∀ uid pageOpt per_pageOpt,
      list_following uid pageOpt per_pageOpt { es0 with users := projectUsers us1 } =
        list_following uid pageOpt per_pageOpt { es0 with users := projectUsers us2 }) ∧
    (∀ queryOpt esMatch,
      search_users queryOpt esMatch { es0 with users := projectUsers us1 } =
        search_users queryOpt esMatch { es0 with users := projectUsers us2 }) := by
  rw [projectUsers_pwVariant us1 us2 h]
  exact ⟨userIndexBody_pwVariant, rfl, fun _ _ => rfl, fun _ _ _ => rfl,
    fun _ _ _ => rfl, fun _ _ => rfl⟩

/-- A user row with one password hash. -/
def annA : UserRow :=
  { id := 1, name := "ann", mobile_no := "5", email := "a@x",
    password := "hashA", created_at := 3 }

/-- The same user row with a different password hash. -/
def annB : UserRow :=
  { id := 1, name := "ann", mobile_no := "5", email := "a@x",
    password := "hashB", created_at := 3 }

/-- C10 witness: two one-row user tables differing only in the password hash
give byte-identical user-search responses. -/
theorem password_noninterference_witness :
    List.Forall₂ PwVariant [annA] [annB] ∧
    search_users (some "ann") (fun q d => q == d.name)
        { esEmpty with users := projectUsers [annA] } =
      search_users (some "ann") (fun q d => q == d.name)
        { esEmpty with users := projectUsers [annB] } := by
  have hf : List.Forall₂ PwVariant [annA] [annB] :=
    List.Forall₂.cons ⟨rfl, rfl, rfl, rfl, rfl⟩ List.Forall₂.nil
  exact ⟨hf, (password_noninterference _ _ hf esEmpty).2.2.2.2.2
    (some "ann") (fun q d => q == d.name)⟩

end TheSocialNetwork
